import Mathlib

/-!
Shallow embedding of the source-side live-migration orchestrator
(`vdsm/virt/migration.py`): the migration driver (`SourceThread`), the
downtime ramp (`DowntimeThread`) and the progress monitor (`MonitorThread`).

External collaborators (the libvirt domain handle, the peer RPC client, the
VM object, hooks, config) are modelled by an environment record `Env` whose
fields give the outcome of each external call.  The driver's `run` is
translated to the pure function `runDriver`, which produces the run's trace
of observable events (semaphore acquire/release, VM-config mutation,
hypervisor calls, volume-path preparation/teardown, pickling), its final
status dictionary, and the exception (if any) that reached the outer
handler.  Logging and VM-lifecycle side effects on the out-of-scope VM
object (`lastStatus`, `setDownStatus`, `cont`, statistics-collector
pause/resume) are elided; Python 2 integer division on non-negative
integers is modelled with `Nat`/`Int` division.
-/

/-- `mode` of the migration: `'remote'` or `'file'` (`SourceThread.__init__`). -/
inductive Mode
  | remote
  | file
deriving DecidableEq, Repr

/-- Which `SourceThread` field a volume path was prepared from:
`self._dst` or `self._dstparams`. -/
inductive VolField
  | dst
  | dstparams
deriving DecidableEq, Repr

/-- Observable events of one driver run, in program order. -/
inductive Event
  | slotAcquire                      -- `SourceThread._ongoingMigrations.acquire()`
  | slotRelease                      -- `SourceThread._ongoingMigrations.release()`
  | setMigrationParams               -- `self._vm.conf['_migrationParams'] = {...}`
  | delMigrationParams               -- `del self._vm.conf['_migrationParams']`
  | migrationCreateCall              -- `self.destServer.migrationCreate(...)`
  | migrateToURI                     -- `self._vm._dom.migrateToURI2(...)`
  | domSave                          -- `self._vm._dom.save(fname)`
  | prepareVol (f : VolField)        -- `self._vm.cif.prepareVolumePath(...)`
  | teardownVol (f : VolField)       -- `self._vm.cif.teardownVolumePath(...)`
  | pickleDump (keys : List String)  -- `pickle.dump(self._machineParams, f)`
deriving DecidableEq, Repr

/-- An exception propagating between phases: a `libvirt.libvirtError`
carrying its error code, or any other exception. -/
inductive Err
  | libvirt (code : Nat)
  | generic
deriving DecidableEq, Repr

/-- `libvirt.VIR_ERR_OPERATION_ABORTED` (external constant; its numeric
value is irrelevant to the model, only its identity is used). -/
def VIR_ERR_OPERATION_ABORTED : Nat := 55

/-- The `{'status': {'code': .., 'message': ..}, 'progress': ..}` dictionary
held in `self.status`, flattened. -/
structure Status where
  code : Nat
  message : String
  progress : Int
deriving DecidableEq, Repr

/-- `self.status` as set by `SourceThread.__init__`. -/
def initialStatus : Status :=
  { code := 0, message := "Migration in progress", progress := 0 }

/-- Modelled from the spec: the `errCode` table comes from `vdsm.define`,
which is not under `src/`; the spec names the terminal failure codes
`exist`, `noConPeer`, `migrateErr`, `migCancelErr` and says `code` is `0`
while in progress, so the four entries are modelled with distinct nonzero
codes and placeholder messages. -/
def errCode_exist : Status :=
  { code := 4, message := "Virtual machine already exists", progress := 0 }

/-- Modelled from the spec: `errCode['noConPeer']` (see `errCode_exist`). -/
def errCode_noConPeer : Status :=
  { code := 10, message := "Could not connect to peer VDS", progress := 0 }

/-- Modelled from the spec: `errCode['migrateErr']` (see `errCode_exist`). -/
def errCode_migrateErr : Status :=
  { code := 12, message := "Fatal error during migration", progress := 0 }

/-- Modelled from the spec: `errCode['migCancelErr']` (see `errCode_exist`). -/
def errCode_migCancelErr : Status :=
  { code := 45, message := "Migration not in progress", progress := 0 }

/-- Environment: outcome of every external call a driver run makes.
A `Bool` field `xOk = false` means that call raised an exception. -/
structure Env where
  mode : Mode
  /-- `vdscli.cannonizeHostPort` / `vdscli.connect` / `kaxmlrpclib.Server`
  (the part of `_setupVdsConnection` outside its `try`) succeed. -/
  connectOk : Bool
  /-- `self.destServer.getVmStats(self._vm.id)`: `.ok c` returns
  `{'status': {'code': c}}`, `.error ()` raises. -/
  getVmStatsResp : Except Unit Nat
  /-- keys of `self._vm.status()`. -/
  vmStatusKeys : List String
  /-- `device` fields of the entries of `self._machineParams['drives']`
  (when that key is present). -/
  driveDevices : List String
  /-- `'username' in vmStats` -/
  hasUsername : Bool
  /-- `'guestIPs' in vmStats` -/
  hasGuestIPs : Bool
  /-- `'guestFQDN' in vmStats` -/
  hasGuestFQDN : Bool
  /-- the external calls of `_setupRemoteMachineParams`
  (`vm.status`, `vm.getStats`, `dom.XMLDesc`) succeed. -/
  setupParamsOk : Bool
  /-- the external calls of `_prepareGuest` succeed. -/
  prepareGuestOk : Bool
  /-- `self._migrationCanceledEvt` as observed at the checkpoint right
  after the semaphore is acquired. -/
  canceledAtSlot : Bool
  /-- `self._vm.saveState()` succeeds. -/
  saveStateOk : Bool
  /-- the hook dispatches (`before_vm_hibernate`, or
  `before_device_migrate_source`/`before_vm_migrate_source`) succeed. -/
  hooksOk : Bool
  /-- `prepareVolumePath(self._dst)` succeeds (file mode). -/
  prepareDstOk : Bool
  /-- `self._vm._dom.save(fname)`: `.error c` raises `libvirtError` with
  error code `c`. -/
  domSaveResult : Except Nat Unit
  /-- `response['status']['code']` of `migrationCreate`. -/
  createRespCode : Nat
  /-- `response['status']['message']` of `migrationCreate`. -/
  createRespMessage : String
  /-- `self._migrationCanceledEvt` as observed just before
  `migrateToURI2` (after `_preparingMigrationEvt = False`). -/
  canceledBeforeURI : Bool
  /-- `self._vm._dom.migrateToURI2(...)`: `.error c` raises `libvirtError`
  with error code `c`. -/
  migrateResult : Except Nat Unit
  /-- `prepareVolumePath(self._dstparams)` succeeds (file mode). -/
  prepareDstparamsOk : Bool
  /-- `open(fname, "w")` / `pickle.dump` succeed (file mode). -/
  pickleOk : Bool

/-- Python dict key insertion at key-set granularity
(`d[k] = v`: the key is present exactly once afterwards). -/
def insertKey (ks : List String) (k : String) : List String :=
  if k ∈ ks then ks else ks ++ [k]

/-- Python `del d[k]` at key-set granularity. -/
def delKey (ks : List String) (k : String) : List String :=
  ks.filter (· != k)

/-- `SourceThread._patchConfigForLegacy`, tracked at key-set granularity:
when a `drives` list is present, a drive whose `device` is `cdrom` or
`floppy` moves its path to a top-level key of that name; afterwards
`afterMigrationStatus = ''` is always added. -/
def patchConfigForLegacy (ks : List String) (driveDevices : List String) :
    List String :=
  let ks1 :=
    if "drives" ∈ ks then
      let ks' := if "cdrom" ∈ driveDevices then insertKey ks "cdrom" else ks
      if "floppy" ∈ driveDevices then insertKey ks' "floppy" else ks'
    else ks
  insertKey ks1 "afterMigrationStatus"

/-- `SourceThread._setupRemoteMachineParams`, tracked at key-set
granularity over `self._machineParams` (values elided). -/
def setupRemoteMachineParams (env : Env) : Except Err (List String) :=
  if env.setupParamsOk then
    let ks := env.vmStatusKeys
    let ks := patchConfigForLegacy ks env.driveDevices
    let ks := insertKey ks "elapsedTimeOffset"
    let ks := if env.hasUsername then insertKey ks "username" else ks
    let ks := if env.hasGuestIPs then insertKey ks "guestIPs" else ks
    let ks := if env.hasGuestFQDN then insertKey ks "guestFQDN" else ks
    let ks := delKey ks "_migrationParams"
    let ks := delKey ks "pid"
    let ks := if env.mode ≠ Mode.file then insertKey ks "migrationDest" else ks
    Except.ok (insertKey ks "_srcDomXML")
  else Except.error Err.generic

/-- `SourceThread._setupVdsConnection`: returns the (possibly replaced)
`self.status`.  Note the source does not raise on a code-0 probe: it only
assigns `errCode['exist']` (resp. `errCode['noConPeer']`) and returns. -/
def setupVdsConnection (env : Env) (st : Status) : Except Err Status :=
  if env.mode = Mode.file then Except.ok st
  else if env.connectOk then
    match env.getVmStatsResp with
    | Except.ok c => if c = 0 then Except.ok errCode_exist else Except.ok st
    | Except.error _ => Except.ok errCode_noConPeer
  else Except.error Err.generic

/-- The first three statements of `SourceThread.run` (peer connect,
param snapshot, guest preparation).  On an exception the payload is the
`self.status` value at the time it was raised. -/
def preMigrationPhases (env : Env) : Except Status (Status × List String) :=
  match setupVdsConnection env initialStatus with
  | Except.error _ => Except.error initialStatus
  | Except.ok st1 =>
    match setupRemoteMachineParams env with
    | Except.error _ => Except.error st1
    | Except.ok mp =>
      if env.prepareGuestOk then Except.ok (st1, mp) else Except.error st1

/-- Result of one phase: its events, the `self.status` afterwards, and
whether it returned or raised. -/
structure PhaseResult where
  events : List Event
  status : Status
  outcome : Except Err Unit
deriving Repr

/-- The transient keys stripped before pickling in `_finishSuccessfully`:
`for ignoreParam in ('displayIp', 'display', 'pid'): del` when present. -/
def stripTransientParams (mp : List String) : List String :=
  delKey (delKey (delKey mp "displayIp") "display") "pid"

/-- `SourceThread._startUnderlyingMigration`.  File mode: hibernate hook,
stats pause, prepare `self._dst`, `dom.save`, teardown `self._dst` in a
`finally`.  Remote mode: migrate hooks, `migrationCreate` (adopting the
peer's status verbatim on refusal), then — unless the cancel flag is set —
`migrateToURI2`; the downtime ramp and monitor threads it starts and stops
are modelled separately. -/
def startUnderlyingMigration (env : Env) (st : Status) : PhaseResult :=
  match env.mode with
  | Mode.file =>
    if env.hooksOk then
      -- `self._vm._vmStats.pause()`; on any failure below, the collector
      -- is resumed before re-raising (side effect elided).
      if env.prepareDstOk then
        match env.domSaveResult with
        | Except.ok _ =>
          ⟨[Event.prepareVol VolField.dst, Event.domSave,
            Event.teardownVol VolField.dst], st, Except.ok ()⟩
        | Except.error c =>
          ⟨[Event.prepareVol VolField.dst, Event.domSave,
            Event.teardownVol VolField.dst], st, Except.error (Err.libvirt c)⟩
      else ⟨[], st, Except.error Err.generic⟩
    else ⟨[], st, Except.error Err.generic⟩
  | Mode.remote =>
    if env.hooksOk then
      if env.createRespCode ≠ 0 then
        -- `self.status = response; raise RuntimeError(...)`
        ⟨[Event.migrationCreateCall],
         { code := env.createRespCode, message := env.createRespMessage,
           progress := 0 },
         Except.error Err.generic⟩
      else
        -- DowntimeThread / MonitorThread start; `_preparingMigrationEvt = False`
        if env.canceledBeforeURI then
          -- `self._raiseAbortError()`
          ⟨[Event.migrationCreateCall], st,
           Except.error (Err.libvirt VIR_ERR_OPERATION_ABORTED)⟩
        else
          match env.migrateResult with
          | Except.ok _ =>
            ⟨[Event.migrationCreateCall, Event.migrateToURI], st, Except.ok ()⟩
          | Except.error c =>
            ⟨[Event.migrationCreateCall, Event.migrateToURI], st,
             Except.error (Err.libvirt c)⟩
    else ⟨[], st, Except.error Err.generic⟩

/-- `SourceThread._finishSuccessfully`: sets `progress = 100`; remote mode
sets the success message; file mode strips the transient params, prepares
`self._dstparams`, pickles the params dictionary, tears the path down in a
`finally`, and sets the success message. -/
def finishSuccessfully (env : Env) (mp : List String) (st : Status) :
    PhaseResult :=
  let st := { st with progress := 100 }
  match env.mode with
  | Mode.remote => ⟨[], { st with message := "Migration done" }, Except.ok ()⟩
  | Mode.file =>
    let ks := stripTransientParams mp
    if env.prepareDstparamsOk then
      if env.pickleOk then
        ⟨[Event.prepareVol VolField.dstparams, Event.pickleDump ks,
          Event.teardownVol VolField.dstparams],
         { st with message := "SaveState done" }, Except.ok ()⟩
      else
        ⟨[Event.prepareVol VolField.dstparams,
          Event.teardownVol VolField.dstparams], st, Except.error Err.generic⟩
    else ⟨[], st, Except.error Err.generic⟩

/-- Result of the inner `try` of `SourceThread.run` (between semaphore
acquisition and the `finally`): events, status, whether
`'_migrationParams' in self._vm.conf`, and the pending exception. -/
structure InnerResult where
  events : List Event
  status : Status
  conf : Bool
  outcome : Except Err Unit
deriving Repr

/-- Body of the inner `try` of `SourceThread.run`: cancel checkpoint,
`conf['_migrationParams'] = {...}`, `saveState`, underlying migration,
finalization.  `conf0` is whether `_migrationParams` was present on the
VM config when the run started. -/
def innerBody (env : Env) (mp : List String) (st : Status) (conf0 : Bool) :
    InnerResult :=
  if env.canceledAtSlot then
    -- `self._raiseAbortError()`
    ⟨[], st, conf0, Except.error (Err.libvirt VIR_ERR_OPERATION_ABORTED)⟩
  else
    -- `self._vm.conf['_migrationParams'] = {...}` then `self._vm.saveState()`
    if env.saveStateOk then
      let su := startUnderlyingMigration env st
      match su.outcome with
      | Except.error e =>
        ⟨Event.setMigrationParams :: su.events, su.status, true,
         Except.error e⟩
      | Except.ok _ =>
        let fin := finishSuccessfully env mp su.status
        ⟨Event.setMigrationParams :: (su.events ++ fin.events), fin.status,
         true, fin.outcome⟩
    else ⟨[Event.setMigrationParams], st, true, Except.error Err.generic⟩

/-- `except libvirt.libvirtError` clause of `SourceThread.run`: on
`VIR_ERR_OPERATION_ABORTED` the status code becomes
`errCode['migCancelErr']['status']['code']` with message
`'Migration canceled'`, and the exception is re-raised. -/
def mapAbortError (res : Except Err Unit) (st : Status) : Status :=
  match res with
  | Except.error (Err.libvirt c) =>
    if c = VIR_ERR_OPERATION_ABORTED then
      { st with code := errCode_migCancelErr.code,
                message := "Migration canceled" }
    else st
  | _ => st

/-- `SourceThread._recover` at status granularity: replace a still-zero
code by `errCode['migrateErr']`; the best-effort peer `destroy`, the VM
resume and the `lastStatus = 'Up'` updates are elided side effects. -/
def recover (st : Status) : Status :=
  if st.code = 0 then errCode_migrateErr else st

/-- Result of a whole driver run: trace, final `self.status`, whether
`_migrationParams` remains on the VM config, and the exception (if any)
that reached the outer `except Exception` handler. -/
structure RunResult where
  trace : List Event
  status : Status
  confHasParams : Bool
  outcome : Except Err Unit
deriving Repr

/-- `SourceThread.run`.  The semaphore acquire is followed by a
`try/finally` whose `finally` deletes `_migrationParams` (when present)
and then releases the semaphore; the outer `except Exception` calls
`_recover` and swallows the exception. -/
def runDriver (env : Env) (conf0 : Bool) : RunResult :=
  match preMigrationPhases env with
  | Except.error st => ⟨[], recover st, conf0, Except.error Err.generic⟩
  | Except.ok (st1, mp) =>
    -- `SourceThread._ongoingMigrations.acquire()`
    let ib := innerBody env mp st1 conf0
    let st3 := mapAbortError ib.outcome ib.status
    let delEvs := if ib.conf then [Event.delMigrationParams] else []
    let conf2 := if ib.conf then false else ib.conf
    let trace := Event.slotAcquire :: (ib.events ++ delEvs ++ [Event.slotRelease])
    match ib.outcome with
    | Except.ok _ => ⟨trace, st3, conf2, Except.ok ()⟩
    | Except.error e => ⟨trace, recover st3, conf2, Except.error e⟩

/-- The trace of a driver run. -/
def traceOf (env : Env) (conf0 : Bool) : List Event :=
  (runDriver env conf0).trace

/-- `SourceThread.stop`: sets `self._migrationCanceledEvt`, calls
`self._vm._dom.abortJob()`; a `libvirtError` from `abortJob` is re-raised
only when `self._preparingMigrationEvt` is already false (the checkpoint
just before `migrateToURI2` has been passed).  Returns (cancel flag set,
what `stop()` itself does: `.error c` = the failure propagates). -/
def stopDriver (preparingMigrationEvt : Bool) (abortJobResult : Except Nat Unit) :
    Bool × Except Nat Unit :=
  match abortJobResult with
  | Except.ok _ => (true, Except.ok ())
  | Except.error c =>
    if preparingMigrationEvt then (true, Except.ok ()) else (true, Except.error c)

/-- `SourceThread.getStat`: when the monitor thread exists, its `progress`
field is copied into the status before returning it. -/
def getStat (st : Status) (monitorProgress : Option Int) : Status :=
  match monitorProgress with
  | some p => { st with progress := p }
  | none => st

/-! ## Downtime ramp (`DowntimeThread`) -/

/-- `self._wait = (delay_per_gib * max(memSize, 2048) + 1023) / 1024`
(Python 2 integer division). -/
def downtimeWaitTotal (delayPerGib memSize : Nat) : Nat :=
  (delayPerGib * max memSize 2048 + 1023) / 1024

/-- Whether `self._stop.isSet()` is observed set at iteration `i`:
the event is set from iteration `cancelAt` on (never, when `none`). -/
def stopObserved (cancelAt : Option Nat) (i : Nat) : Bool :=
  match cancelAt with
  | some c => decide (c ≤ i)
  | none => false

/-- The loop of `DowntimeThread.run`: at iteration `i` it waits, breaks if
the stop event is set, else issues `migrateSetMaxDowntime` with
`self._downtime * (i + 1) / self.DOWNTIME_STEPS` (Python 2 integer
division).  Returns the list of issued downtime values; `fuel` is the
number of remaining iterations. -/
def downtimeLoop (D N : Nat) (stopSet : Nat → Bool) : Nat → Nat → List Nat
  | _, 0 => []
  | i, fuel + 1 =>
    if stopSet i then []
    else D * (i + 1) / N :: downtimeLoop D N stopSet (i + 1) fuel

/-- `DowntimeThread.run` with target downtime `D`, `DOWNTIME_STEPS = N`,
and the cancel event set from iteration `cancelAt` on. -/
def downtimeRun (D N : Nat) (cancelAt : Option Nat) : List Nat :=
  downtimeLoop D N (stopObserved cancelAt) 0 N

/-! ## Progress monitor (`MonitorThread`) -/

/-- The nested `calculateProgress` of `MonitorThread.run`:
`remaining == 0` gives 100; otherwise
`progress = 100 - 100 * remaining / total if total else 0`, returned as-is
below 100 and clamped to 99 otherwise (Python 2 integer division; both
division operands are non-negative in every use). -/
def calculateProgress (remaining total : Int) : Int :=
  if remaining = 0 then 100
  else
    let progress := if total ≠ 0 then 100 - 100 * remaining / total else 0
    if progress < 100 then progress else 99

/-- `migrationMaxTime = (maxTimePerGiB * memSize + 1023) / 1024`
from `MonitorThread.run` (Python 2 integer division). -/
def migrationMaxTimeOf (maxTimePerGiB memSize : Int) : Int :=
  (maxTimePerGiB * memSize + 1023) / 1024

/-- Configuration captured by `MonitorThread.run` before its loop. -/
structure MonitorConfig where
  migrationMaxTime : Int
  startTime : Int
  progressTimeout : Int
deriving DecidableEq, Repr

/-- One `jobInfo()` sample together with the wall time `now = time.time()`
read right after it. -/
structure JobSample where
  jobType : Int
  timeElapsed : Int
  dataTotal : Int
  dataRemaining : Int
  now : Int
deriving DecidableEq, Repr

/-- Loop state of `MonitorThread.run` plus the thread's `progress` field.
`aborted` records that the monitor itself called `abortJob`; `stopped`
is the `_stop` event (set by `stop()` or on abort). -/
structure MonState where
  lowmark : Option Int
  lastProgressTime : Int
  progress : Int
  stopped : Bool
  aborted : Bool
deriving DecidableEq, Repr

/-- State at the top of `MonitorThread.run`: `lowmark = None`,
`lastProgressTime = time.time()` — the wall clock when the monitor's run
starts, `runStartClock`, not the driver-supplied `startTime` — and the
`progress = 0` set in `__init__`. -/
def initMonState (runStartClock : Int) : MonState :=
  { lowmark := none, lastProgressTime := runStartClock, progress := 0,
    stopped := false, aborted := false }

/-- Tail of the loop body: skip the progress update on a stale sample
(`jobType == 0`), else `self.progress = calculateProgress(...)`. -/
def progressUpdate (st : MonState) (s : JobSample) : MonState :=
  if s.jobType = 0 then st
  else { st with progress := calculateProgress s.dataRemaining s.dataTotal }

/-- One iteration of the `MonitorThread.run` loop on sample `s`:
wall-clock overrun check, lowmark improvement, stall timeout, abort
(`abortJob(); self.stop(); break`), then the progress update.  A stopped
monitor ignores further samples (the loop has exited). -/
def monitorStep (cfg : MonitorConfig) (st : MonState) (s : JobSample) :
    MonState :=
  if st.stopped then st
  else if 0 < cfg.migrationMaxTime ∧
          cfg.migrationMaxTime < s.now - cfg.startTime then
    { st with aborted := true, stopped := true }
  else
    match st.lowmark with
    | none =>
      progressUpdate
        { st with lowmark := some s.dataRemaining, lastProgressTime := s.now } s
    | some l =>
      if s.dataRemaining < l then
        progressUpdate
          { st with lowmark := some s.dataRemaining, lastProgressTime := s.now } s
      else if cfg.progressTimeout < s.now - st.lastProgressTime then
        { st with aborted := true, stopped := true }
      else
        progressUpdate st s

/-- The monitor loop over a list of samples. -/
def runMonitor (cfg : MonitorConfig) (st : MonState) (samples : List JobSample) :
    MonState :=
  samples.foldl (monitorStep cfg) st

/-! ## Concrete inputs used by the claim checks -/

/-- A remote-mode run whose external calls all succeed and whose peer probe
returns a nonzero code (VM not present on the destination). -/
def envRemoteSuccess : Env :=
  { mode := Mode.remote, connectOk := true, getVmStatsResp := Except.ok 1,
    vmStatusKeys := ["memSize", "display", "displayIp", "pid"],
    driveDevices := [], hasUsername := false, hasGuestIPs := false,
    hasGuestFQDN := false, setupParamsOk := true, prepareGuestOk := true,
    canceledAtSlot := false, saveStateOk := true, hooksOk := true,
    prepareDstOk := true, domSaveResult := Except.ok (),
    createRespCode := 0, createRespMessage := "", canceledBeforeURI := false,
    migrateResult := Except.ok (), prepareDstparamsOk := true, pickleOk := true }

/-- A file-mode run whose external calls all succeed. -/
def envFileSuccess : Env :=
  { envRemoteSuccess with mode := Mode.file }

/-- A remote-mode run in which the peer probe `getVmStats` returns code 0
(the VM already exists on the destination) and everything else succeeds. -/
def envC1bug : Env :=
  { envRemoteSuccess with getVmStatsResp := Except.ok 0 }

/-- A remote-mode run in which `migrateToURI2` raises a `libvirtError` with
code `VIR_ERR_OPERATION_ABORTED` (the job was aborted after a cancel). -/
def envAbortedURI : Env :=
  { envRemoteSuccess with
      migrateResult := Except.error VIR_ERR_OPERATION_ABORTED }

/-- A monitor configuration with the wall-clock overrun check disabled. -/
def cfgNoMax : MonitorConfig :=
  { migrationMaxTime := 0, startTime := 0, progressTimeout := 1000 }

/-- A sample with `dataRemaining = 0` arriving while the job is active. -/
def sampleZero : JobSample :=
  { jobType := 2, timeElapsed := 0, dataTotal := 100, dataRemaining := 0,
    now := 1 }

/-- A later sample in which `dataRemaining` has grown back to 50. -/
def sampleFifty : JobSample :=
  { jobType := 2, timeElapsed := 0, dataTotal := 100, dataRemaining := 50,
    now := 2 }

/-- A monitor configuration whose driver-supplied `startTime` is 5. -/
def cfgStall : MonitorConfig :=
  { migrationMaxTime := 0, startTime := 5, progressTimeout := 10 }

/-- A monitor state with an established lowmark and last progress at time 0. -/
def stStall : MonState :=
  { lowmark := some 10, lastProgressTime := 0, progress := 0,
    stopped := false, aborted := false }

/-- A sample showing no lowmark improvement at time 200. -/
def sStall : JobSample :=
  { jobType := 2, timeElapsed := 0, dataTotal := 100, dataRemaining := 20,
    now := 200 }

/-! ## Helper lemmas -/

/-- The strip loop of `_finishSuccessfully` removes all three transient
keys from the params key set. -/
theorem stripTransient_spec (mp : List String) :
    "displayIp" ∉ stripTransientParams mp ∧
    "display" ∉ stripTransientParams mp ∧
    "pid" ∉ stripTransientParams mp := by
  simp [stripTransientParams, delKey, List.mem_filter]

/-- Case analysis on the events and the `_migrationParams` flag produced by
the inner `try` body of `SourceThread.run`. -/
theorem innerBody_cases (env : Env) (mp : List String) (st : Status) (c0 : Bool) :
    ((innerBody env mp st c0).events = [] ∧ (innerBody env mp st c0).conf = c0) ∨
    ((innerBody env mp st c0).conf = true ∧
      ((innerBody env mp st c0).events = [Event.setMigrationParams] ∨
       (innerBody env mp st c0).events =
         [Event.setMigrationParams, Event.migrationCreateCall] ∨
       (innerBody env mp st c0).events =
         [Event.setMigrationParams, Event.migrationCreateCall,
          Event.migrateToURI] ∨
       (innerBody env mp st c0).events =
         [Event.setMigrationParams, Event.prepareVol VolField.dst,
          Event.domSave, Event.teardownVol VolField.dst] ∨
       (innerBody env mp st c0).events =
         [Event.setMigrationParams, Event.prepareVol VolField.dst,
          Event.domSave, Event.teardownVol VolField.dst,
          Event.prepareVol VolField.dstparams,
          Event.pickleDump (stripTransientParams mp),
          Event.teardownVol VolField.dstparams] ∨
       (innerBody env mp st c0).events =
         [Event.setMigrationParams, Event.prepareVol VolField.dst,
          Event.domSave, Event.teardownVol VolField.dst,
          Event.prepareVol VolField.dstparams,
          Event.teardownVol VolField.dstparams])) := by
  unfold innerBody
  by_cases hc : env.canceledAtSlot
  · simp [hc]
  · by_cases hs : env.saveStateOk
    · unfold startUnderlyingMigration finishSuccessfully
      cases hm : env.mode
      · -- remote
        by_cases hh : env.hooksOk
        · by_cases hcr : env.createRespCode = 0
          · by_cases hcb : env.canceledBeforeURI
            · simp [hc, hs, hm, hh, hcr, hcb]
            · cases hmr : env.migrateResult
              · simp [hc, hs, hm, hh, hcr, hcb, hmr]
              · simp [hc, hs, hm, hh, hcr, hcb, hmr]
          · simp [hc, hs, hm, hh, hcr]
        · simp [hc, hs, hm, hh]
      · -- file
        by_cases hh : env.hooksOk
        · by_cases hp : env.prepareDstOk
          · cases hd : env.domSaveResult
            · simp [hc, hs, hm, hh, hp, hd]
            · by_cases hq : env.prepareDstparamsOk
              · by_cases hk : env.pickleOk
                · simp [hc, hs, hm, hh, hp, hd, hq, hk]
                · simp [hc, hs, hm, hh, hp, hd, hq, hk]
              · simp [hc, hs, hm, hh, hp, hd, hq]
          · simp [hc, hs, hm, hh, hp]
        · simp [hc, hs, hm, hh]
    · simp [hc, hs]

/-- Enumeration of every trace a driver run can produce. -/
theorem runDriver_trace_cases (env : Env) (c0 : Bool) :
    traceOf env c0 = [] ∨
    traceOf env c0 = [Event.slotAcquire, Event.slotRelease] ∨
    traceOf env c0 =
      [Event.slotAcquire, Event.delMigrationParams, Event.slotRelease] ∨
    traceOf env c0 =
      [Event.slotAcquire, Event.setMigrationParams, Event.delMigrationParams,
       Event.slotRelease] ∨
    traceOf env c0 =
      [Event.slotAcquire, Event.setMigrationParams, Event.migrationCreateCall,
       Event.delMigrationParams, Event.slotRelease] ∨
    traceOf env c0 =
      [Event.slotAcquire, Event.setMigrationParams, Event.migrationCreateCall,
       Event.migrateToURI, Event.delMigrationParams, Event.slotRelease] ∨
    traceOf env c0 =
      [Event.slotAcquire, Event.setMigrationParams,
       Event.prepareVol VolField.dst, Event.domSave,
       Event.teardownVol VolField.dst, Event.delMigrationParams,
       Event.slotRelease] ∨
    (∃ ks, "displayIp" ∉ ks ∧ "display" ∉ ks ∧ "pid" ∉ ks ∧
      traceOf env c0 =
        [Event.slotAcquire, Event.setMigrationParams,
         Event.prepareVol VolField.dst, Event.domSave,
         Event.teardownVol VolField.dst, Event.prepareVol VolField.dstparams,
         Event.pickleDump ks, Event.teardownVol VolField.dstparams,
         Event.delMigrationParams, Event.slotRelease]) ∨
    traceOf env c0 =
      [Event.slotAcquire, Event.setMigrationParams,
       Event.prepareVol VolField.dst, Event.domSave,
       Event.teardownVol VolField.dst, Event.prepareVol VolField.dstparams,
       Event.teardownVol VolField.dstparams, Event.delMigrationParams,
       Event.slotRelease] := by
  unfold traceOf runDriver
  cases hpre : preMigrationPhases env
  · simp [hpre]
  · rename_i pr
    obtain ⟨st1, mp⟩ := pr
    rcases innerBody_cases env mp st1 c0 with ⟨he, hcf⟩ | ⟨hcf, hforms⟩
    · cases c0
      · cases ho : (innerBody env mp st1 false).outcome <;>
          simp [hpre, ho, he, hcf]
      · cases ho : (innerBody env mp st1 true).outcome <;>
          simp [hpre, ho, he, hcf]
    · rcases hforms with hf | hf | hf | hf | hf | hf
      · cases ho : (innerBody env mp st1 c0).outcome <;>
          simp [hpre, ho, hf, hcf]
      · cases ho : (innerBody env mp st1 c0).outcome <;>
          simp [hpre, ho, hf, hcf]
      · cases ho : (innerBody env mp st1 c0).outcome <;>
          simp [hpre, ho, hf, hcf]
      · cases ho : (innerBody env mp st1 c0).outcome <;>
          simp [hpre, ho, hf, hcf]
      · refine Or.inr (Or.inr (Or.inr (Or.inr (Or.inr (Or.inr (Or.inr
          (Or.inl ⟨stripTransientParams mp, (stripTransient_spec mp).1,
            (stripTransient_spec mp).2.1, (stripTransient_spec mp).2.2,
            ?_⟩)))))))
        cases ho : (innerBody env mp st1 c0).outcome <;>
          simp [hpre, ho, hf, hcf]
      · cases ho : (innerBody env mp st1 c0).outcome <;>
          simp [hpre, ho, hf, hcf]

/-- The `finally` of `SourceThread.run` leaves `_migrationParams` absent
whenever it was absent when the run started. -/
theorem runDriver_conf_false (env : Env) :
    (runDriver env false).confHasParams = false := by
  unfold runDriver
  cases hpre : preMigrationPhases env
  · simp [hpre]
  · rename_i pr
    obtain ⟨st1, mp⟩ := pr
    cases ho : (innerBody env mp st1 false).outcome <;>
      cases hcf : (innerBody env mp st1 false).conf <;>
        simp [hpre, ho, hcf]

/-- C3: in every driver run the global migration slot's acquired count
returns to its pre-run level: acquire and release events are in bijection
(at most one of each), the release is the final event of the held section,
and the hypervisor migration call (`migrateToURI2` or `dom.save`) happens
only inside the held section. -/
theorem migration_slot_balance (env : Env) (conf0 : Bool) :
    (traceOf env conf0).count Event.slotAcquire =
      (traceOf env conf0).count Event.slotRelease ∧
    (traceOf env conf0).count Event.slotAcquire ≤ 1 ∧
    (Event.migrateToURI ∈ traceOf env conf0 ∨ Event.domSave ∈ traceOf env conf0 →
      ∃ mid, traceOf env conf0 = Event.slotAcquire :: mid ++ [Event.slotRelease] ∧
        Event.slotAcquire ∉ mid ∧ Event.slotRelease ∉ mid ∧
        (Event.migrateToURI ∈ traceOf env conf0 → Event.migrateToURI ∈ mid) ∧
        (Event.domSave ∈ traceOf env conf0 → Event.domSave ∈ mid)) := by
  rcases runDriver_trace_cases env conf0 with
    h | h | h | h | h | h | h | ⟨ks, h1, h2, h3, h⟩ | h <;>
    rw [h] <;>
    refine ⟨by simp [List.count_cons], by simp [List.count_cons], ?_⟩ <;>
    intro hmem
  · simp at hmem
  · simp at hmem
  · simp at hmem
  · simp at hmem
  · simp at hmem
  · exact ⟨[Event.setMigrationParams, Event.migrationCreateCall,
      Event.migrateToURI, Event.delMigrationParams], rfl,
      by simp, by simp, fun _ => by simp, by simp⟩
  · exact ⟨[Event.setMigrationParams, Event.prepareVol VolField.dst,
      Event.domSave, Event.teardownVol VolField.dst,
      Event.delMigrationParams], rfl,
      by simp, by simp, by simp, fun _ => by simp⟩
  · exact ⟨[Event.setMigrationParams, Event.prepareVol VolField.dst,
      Event.domSave, Event.teardownVol VolField.dst,
      Event.prepareVol VolField.dstparams, Event.pickleDump ks,
      Event.teardownVol VolField.dstparams, Event.delMigrationParams], rfl,
      by simp, by simp, by simp, fun _ => by simp⟩
  · exact ⟨[Event.setMigrationParams, Event.prepareVol VolField.dst,
      Event.domSave, Event.teardownVol VolField.dst,
      Event.prepareVol VolField.dstparams,
      Event.teardownVol VolField.dstparams, Event.delMigrationParams], rfl,
      by simp, by simp, by simp, fun _ => by simp⟩

/-- C3 check: a concrete successful remote run in which the slot section
exists and contains the hypervisor call. -/
theorem migration_slot_balance_check :
    ∃ mid, traceOf envRemoteSuccess false =
        Event.slotAcquire :: mid ++ [Event.slotRelease] ∧
      Event.slotAcquire ∉ mid ∧ Event.slotRelease ∉ mid ∧
      (Event.migrateToURI ∈ traceOf envRemoteSuccess false →
        Event.migrateToURI ∈ mid) ∧
      (Event.domSave ∈ traceOf envRemoteSuccess false →
        Event.domSave ∈ mid) :=
  (migration_slot_balance envRemoteSuccess false).2.2 (Or.inl (by decide))

/-- C4: starting from a VM config without `_migrationParams`, the key is
absent again after the run on every exit path; whenever the hypervisor
migration (`migrateToURI2` or `dom.save`) is invoked the key was set
before it, and whenever it was set it is deleted before the global slot is
released. -/
theorem migration_params_lifecycle (env : Env) :
    (runDriver env false).confHasParams = false ∧
    (Event.migrateToURI ∈ traceOf env false →
      ∃ pre post, traceOf env false = pre ++ Event.setMigrationParams :: post ∧
        Event.migrateToURI ∈ post) ∧
    (Event.domSave ∈ traceOf env false →
      ∃ pre post, traceOf env false = pre ++ Event.setMigrationParams :: post ∧
        Event.domSave ∈ post) ∧
    (Event.setMigrationParams ∈ traceOf env false →
      ∃ pre post, traceOf env false = pre ++ Event.delMigrationParams :: post ∧
        Event.slotRelease ∈ post) := by
  refine ⟨runDriver_conf_false env, ?_⟩
  rcases runDriver_trace_cases env false with
    h | h | h | h | h | h | h | ⟨ks, h1, h2, h3, h⟩ | h <;> rw [h]
  · exact ⟨by simp, by simp, by simp⟩
  · exact ⟨by simp, by simp, by simp⟩
  · exact ⟨by simp, by simp, by simp⟩
  · refine ⟨by simp, by simp, fun _ => ?_⟩
    exact ⟨[Event.slotAcquire, Event.setMigrationParams],
      [Event.slotRelease], rfl, by simp⟩
  · refine ⟨by simp, by simp, fun _ => ?_⟩
    exact ⟨[Event.slotAcquire, Event.setMigrationParams,
      Event.migrationCreateCall], [Event.slotRelease], rfl, by simp⟩
  · refine ⟨fun _ => ?_, by simp, fun _ => ?_⟩
    · exact ⟨[Event.slotAcquire], [Event.migrationCreateCall,
        Event.migrateToURI, Event.delMigrationParams, Event.slotRelease],
        rfl, by simp⟩
    · exact ⟨[Event.slotAcquire, Event.setMigrationParams,
        Event.migrationCreateCall, Event.migrateToURI],
        [Event.slotRelease], rfl, by simp⟩
  · refine ⟨by simp, fun _ => ?_, fun _ => ?_⟩
    · exact ⟨[Event.slotAcquire], [Event.prepareVol VolField.dst,
        Event.domSave, Event.teardownVol VolField.dst,
        Event.delMigrationParams, Event.slotRelease], rfl, by simp⟩
    · exact ⟨[Event.slotAcquire, Event.setMigrationParams,
        Event.prepareVol VolField.dst, Event.domSave,
        Event.teardownVol VolField.dst], [Event.slotRelease], rfl, by simp⟩
  · refine ⟨by simp, fun _ => ?_, fun _ => ?_⟩
    · exact ⟨[Event.slotAcquire], [Event.prepareVol VolField.dst,
        Event.domSave, Event.teardownVol VolField.dst,
        Event.prepareVol VolField.dstparams, Event.pickleDump ks,
        Event.teardownVol VolField.dstparams, Event.delMigrationParams,
        Event.slotRelease], rfl, by simp⟩
    · exact ⟨[Event.slotAcquire, Event.setMigrationParams,
        Event.prepareVol VolField.dst, Event.domSave,
        Event.teardownVol VolField.dst, Event.prepareVol VolField.dstparams,
        Event.pickleDump ks, Event.teardownVol VolField.dstparams],
        [Event.slotRelease], rfl, by simp⟩
  · refine ⟨by simp, fun _ => ?_, fun _ => ?_⟩
    · exact ⟨[Event.slotAcquire], [Event.prepareVol VolField.dst,
        Event.domSave, Event.teardownVol VolField.dst,
        Event.prepareVol VolField.dstparams,
        Event.teardownVol VolField.dstparams, Event.delMigrationParams,
        Event.slotRelease], rfl, by simp⟩
    · exact ⟨[Event.slotAcquire, Event.setMigrationParams,
        Event.prepareVol VolField.dst, Event.domSave,
        Event.teardownVol VolField.dst, Event.prepareVol VolField.dstparams,
        Event.teardownVol VolField.dstparams], [Event.slotRelease],
        rfl, by simp⟩

/-- C4 check: in the concrete successful remote run, `_migrationParams`
is set before the hypervisor call. -/
theorem migration_params_lifecycle_check :
    ∃ pre post, traceOf envRemoteSuccess false =
      pre ++ Event.setMigrationParams :: post ∧ Event.migrateToURI ∈ post :=
  (migration_params_lifecycle envRemoteSuccess).2.1 (by decide)

/-- C8: in every run starting without `_migrationParams`, any params
dictionary pickled to the destination-params volume contains none of the
transient keys `displayIp`, `display`, `pid`. -/
theorem file_persisted_params_no_transient (env : Env) (ks : List String)
    (h : Event.pickleDump ks ∈ traceOf env false) :
    "displayIp" ∉ ks ∧ "display" ∉ ks ∧ "pid" ∉ ks := by
  rcases runDriver_trace_cases env false with
    hf | hf | hf | hf | hf | hf | hf | ⟨ks', h1, h2, h3, hf⟩ | hf <;>
    rw [hf] at h <;> simp at h
  subst h
  exact ⟨h1, h2, h3⟩

/-- C8 check: the concrete successful file-mode run pickles exactly the
stripped key set. -/
theorem file_persisted_params_no_transient_check :
    "displayIp" ∉ ["memSize", "afterMigrationStatus", "elapsedTimeOffset",
      "_srcDomXML"] ∧
    "display" ∉ ["memSize", "afterMigrationStatus", "elapsedTimeOffset",
      "_srcDomXML"] ∧
    "pid" ∉ ["memSize", "afterMigrationStatus", "elapsedTimeOffset",
      "_srcDomXML"] :=
  file_persisted_params_no_transient envFileSuccess
    ["memSize", "afterMigrationStatus", "elapsedTimeOffset", "_srcDomXML"]
    (by decide)

/-- C10: in every file-mode run, the hypervisor state is saved while the
volume path prepared from `self._dst` is held (prepare, save, teardown in
order, teardown on both save outcomes), the params dictionary is pickled
while the separate volume path prepared from `self._dstparams` is held,
and each prepared path is torn down on every exit path of its own block. -/
theorem file_mode_two_volume_paths (env : Env) (hmode : env.mode = Mode.file) :
    (Event.prepareVol VolField.dst ∈ traceOf env false →
      ∃ pre post, traceOf env false =
        pre ++ [Event.prepareVol VolField.dst, Event.domSave,
          Event.teardownVol VolField.dst] ++ post) ∧
    (∀ ks, Event.pickleDump ks ∈ traceOf env false →
      ∃ pre post, traceOf env false =
        pre ++ [Event.prepareVol VolField.dstparams, Event.pickleDump ks,
          Event.teardownVol VolField.dstparams] ++ post) ∧
    (Event.prepareVol VolField.dstparams ∈ traceOf env false →
      Event.teardownVol VolField.dstparams ∈ traceOf env false) ∧
    (Event.prepareVol VolField.dst ∈ traceOf env false →
      Event.teardownVol VolField.dst ∈ traceOf env false) := by
  clear hmode
  rcases runDriver_trace_cases env false with
    h | h | h | h | h | h | h | ⟨ks', h1, h2, h3, h⟩ | h <;> rw [h]
  · exact ⟨by simp, by simp, by simp, by simp⟩
  · exact ⟨by simp, by simp, by simp, by simp⟩
  · exact ⟨by simp, by simp, by simp, by simp⟩
  · exact ⟨by simp, by simp, by simp, by simp⟩
  · exact ⟨by simp, by simp, by simp, by simp⟩
  · exact ⟨by simp, by simp, by simp, by simp⟩
  · refine ⟨fun _ => ?_, by simp, by simp, by simp⟩
    exact ⟨[Event.slotAcquire, Event.setMigrationParams],
      [Event.delMigrationParams, Event.slotRelease], rfl⟩
  · refine ⟨fun _ => ?_, fun ks hks => ?_, by simp, by simp⟩
    · exact ⟨[Event.slotAcquire, Event.setMigrationParams],
        [Event.prepareVol VolField.dstparams, Event.pickleDump ks',
         Event.teardownVol VolField.dstparams, Event.delMigrationParams,
         Event.slotRelease], rfl⟩
    · simp at hks
      subst hks
      exact ⟨[Event.slotAcquire, Event.setMigrationParams,
        Event.prepareVol VolField.dst, Event.domSave,
        Event.teardownVol VolField.dst],
        [Event.delMigrationParams, Event.slotRelease], rfl⟩
  · refine ⟨fun _ => ?_, by simp, by simp, by simp⟩
    exact ⟨[Event.slotAcquire, Event.setMigrationParams],
      [Event.prepareVol VolField.dstparams,
       Event.teardownVol VolField.dstparams, Event.delMigrationParams,
       Event.slotRelease], rfl⟩

/-- C10 check: the concrete successful file-mode run saves within the
`_dst` window and pickles within the `_dstparams` window. -/
theorem file_mode_two_volume_paths_check :
    (∃ pre post, traceOf envFileSuccess false =
      pre ++ [Event.prepareVol VolField.dst, Event.domSave,
        Event.teardownVol VolField.dst] ++ post) ∧
    (∃ pre post, traceOf envFileSuccess false =
      pre ++ [Event.prepareVol VolField.dstparams,
        Event.pickleDump ["memSize", "afterMigrationStatus",
          "elapsedTimeOffset", "_srcDomXML"],
        Event.teardownVol VolField.dstparams] ++ post) :=
  ⟨(file_mode_two_volume_paths envFileSuccess rfl).1 (by decide),
   (file_mode_two_volume_paths envFileSuccess rfl).2.1
     ["memSize", "afterMigrationStatus", "elapsedTimeOffset", "_srcDomXML"]
     (by decide)⟩

/-- C1: evaluation of the code at the failing input.  In a remote-mode run
whose peer probe `getVmStats` returns code 0, `_setupVdsConnection` only
assigns `errCode['exist']` to `self.status` and returns, so `run`
continues: the global slot *is* acquired, `migrateToURI2` *is* invoked,
and the run ends with the contradictory status of error code `exist`
together with the success message `'Migration done'` and progress 100 —
the claimed abort before the slot does not happen. -/
theorem exist_probe_still_acquires_slot :
    Event.slotAcquire ∈ traceOf envC1bug false ∧
    Event.migrateToURI ∈ traceOf envC1bug false ∧
    (runDriver envC1bug false).status.code = errCode_exist.code ∧
    (runDriver envC1bug false).status.message = "Migration done" ∧
    (runDriver envC1bug false).status.progress = 100 ∧
    errCode_exist.code ≠ 0 := by
  decide

/-- C5: `stop()` sets the cancel flag and calls `abortJob`; a
`libvirtError` from `abortJob` propagates out of `stop()` exactly when the
preparing-migration checkpoint has been passed
(`_preparingMigrationEvt = False`), and is swallowed otherwise; and
whenever the run's pending exception is a `libvirtError` with code
`VIR_ERR_OPERATION_ABORTED`, the final status has code
`errCode['migCancelErr']` and message `'Migration canceled'`. -/
theorem stop_propagation_and_cancel_status :
    (∀ c : Nat, (stopDriver false (Except.error c)).2 = Except.error c) ∧
    (∀ c : Nat, (stopDriver true (Except.error c)).2 = Except.ok ()) ∧
    (∀ (p : Bool) (r : Except Nat Unit), (stopDriver p r).1 = true) ∧
    (∀ (env : Env) (c0 : Bool),
      (runDriver env c0).outcome =
        Except.error (Err.libvirt VIR_ERR_OPERATION_ABORTED) →
      (runDriver env c0).status.code = errCode_migCancelErr.code ∧
      (runDriver env c0).status.message = "Migration canceled") := by
  refine ⟨fun c => rfl, fun c => rfl, fun p r => ?_, fun env c0 h => ?_⟩
  · cases r
    · cases p <;> rfl
    · rfl
  · unfold runDriver at h ⊢
    cases hpre : preMigrationPhases env
    · rw [hpre] at h
      simp at h
    · rename_i pr
      obtain ⟨st1, mp⟩ := pr
      rw [hpre] at h
      cases ho : (innerBody env mp st1 c0).outcome
      · rename_i e
        simp only [ho] at h ⊢
        cases h' : e
        · rename_i c
          subst h'
          simp at h
          subst h
          simp [mapAbortError, recover, errCode_migCancelErr]
        · subst h'
          simp at h
      · simp only [ho] at h
        simp at h

/-- C5 check: concrete instances of the propagation rules, and the
cancel-status mapping on a run whose `migrateToURI2` raises the
aborted-operation error. -/
theorem stop_propagation_and_cancel_status_check :
    (stopDriver false (Except.error 3)).2 = Except.error 3 ∧
    (stopDriver true (Except.error 3)).2 = Except.ok () ∧
    (runDriver envAbortedURI false).status.code = errCode_migCancelErr.code ∧
    (runDriver envAbortedURI false).status.message = "Migration canceled" := by
  obtain ⟨h1, h2, h3, h4⟩ := stop_propagation_and_cancel_status
  obtain ⟨h5, h6⟩ := h4 envAbortedURI false (by rfl)
  exact ⟨h1 3, h2 3, h5, h6⟩


/-- C9: `calculateProgress` returns 100 when nothing remains, `0` when the
total is zero, and otherwise `100 - 100*r/t` in integer arithmetic,
clamped to 99 when that value would reach 100. -/
theorem calc_progress_spec (r t : Int) (hr : 0 ≤ r) (ht : 0 ≤ t) :
    calculateProgress 0 t = 100 ∧
    (0 < r → 0 < t →
      calculateProgress r t =
        if 100 ≤ 100 - 100 * r / t then 99 else 100 - 100 * r / t) ∧
    (0 < r → calculateProgress r 0 = 0) := by
  refine ⟨by simp [calculateProgress], fun h1 h2 => ?_, fun h1 => ?_⟩
  · have hr0 : ¬ r = 0 := by omega
    have ht0 : t ≠ 0 := by omega
    simp only [calculateProgress, if_neg hr0, if_pos ht0]
    generalize 100 - 100 * r / t = q
    by_cases hq : q < 100
    · rw [if_pos hq, if_neg (by omega)]
    · rw [if_neg hq, if_pos (by omega)]
  · unfold calculateProgress
    rw [if_neg (by omega)]
    norm_num

/-- C9 check: concrete evaluations covering all three branches. -/
theorem calc_progress_spec_check :
    calculateProgress 0 200 = 100 ∧ calculateProgress 1 200 = 99 ∧
    calculateProgress 1 0 = 0 := by
  obtain ⟨h1, h2, h3⟩ := calc_progress_spec 1 200 (by norm_num) (by norm_num)
  refine ⟨h1, ?_, h3 (by norm_num)⟩
  have h4 := h2 (by norm_num) (by norm_num)
  norm_num at h4
  exact h4

/-- Closed form of the `DowntimeThread.run` loop when the cancel event is
never set. -/
theorem downtimeLoop_none_eq (D N : Nat) :
    ∀ fuel i, downtimeLoop D N (stopObserved none) i fuel =
      (List.range fuel).map (fun j => D * (i + j + 1) / N) := by
  intro fuel
  induction fuel with
  | zero => intro i; simp [downtimeLoop]
  | succ n ih =>
    intro i
    rw [downtimeLoop]
    simp only [stopObserved, Bool.false_eq_true, if_false]
    rw [ih (i + 1), List.range_succ_eq_map, List.map_cons, List.map_map]
    congr 1
    refine List.map_congr_left fun a _ => ?_
    simp only [Function.comp_apply]
    have hidx : i + 1 + a + 1 = i + (a + 1) + 1 := by omega
    rw [hidx]

/-- Closed form of the `DowntimeThread.run` loop when the cancel event is
set from iteration `c` on. -/
theorem downtimeLoop_some_eq (D N c : Nat) :
    ∀ fuel i, downtimeLoop D N (stopObserved (some c)) i fuel =
      (List.range (min (c - i) fuel)).map (fun j => D * (i + j + 1) / N) := by
  intro fuel
  induction fuel with
  | zero => intro i; simp [downtimeLoop]
  | succ n ih =>
    intro i
    rw [downtimeLoop]
    by_cases hci : c ≤ i
    · have h0 : c - i = 0 := by omega
      simp [stopObserved, hci, h0]
    · have hstop : stopObserved (some c) i = false := by
        simp only [stopObserved, decide_eq_false_iff_not]
        omega
      simp only [hstop, Bool.false_eq_true, if_false]
      rw [ih (i + 1)]
      have hmin : min (c - i) (n + 1) = min (c - (i + 1)) n + 1 := by omega
      rw [hmin, List.range_succ_eq_map, List.map_cons, List.map_map]
      congr 1
      refine List.map_congr_left fun a _ => ?_
      simp only [Function.comp_apply]
      have hidx : i + 1 + a + 1 = i + (a + 1) + 1 := by omega
      rw [hidx]

/-- The downtime values `D*(k+1)/N` are non-decreasing in `k`. -/
theorem rangeMap_chain_le (D N M : Nat) :
    List.Chain' (· ≤ ·) ((List.range M).map (fun k => D * (k + 1) / N)) := by
  rw [List.chain'_map]
  cases M with
  | zero => simp
  | succ m =>
    rw [List.chain'_range_succ]
    intro i _
    exact Nat.div_le_div_right (Nat.mul_le_mul le_rfl (by omega))

/-- With `N ≤ D` (and `N > 0`) the downtime values are strictly
increasing: each step adds `D ≥ N` to the numerator. -/
theorem rangeMap_chain_lt (D N M : Nat) (hND : N ≤ D) (hN : 0 < N) :
    List.Chain' (· < ·) ((List.range M).map (fun k => D * (k + 1) / N)) := by
  rw [List.chain'_map]
  cases M with
  | zero => simp
  | succ m =>
    rw [List.chain'_range_succ]
    intro i _
    have h2 : D * (i + 1 + 1) = D * (i + 1) + D := by ring
    have h1 : D * (i + 1) + N ≤ D * (i + 1 + 1) := by omega
    calc D * (i + 1) / N < D * (i + 1) / N + 1 := Nat.lt_succ_self _
      _ = (D * (i + 1) + N) / N := (Nat.add_div_right _ hN).symm
      _ ≤ D * (i + 1 + 1) / N := Nat.div_le_div_right h1

/-- C7 counterexample: with target downtime 1 and 3 steps the uncancelled
ramp issues `[0, 0, 1]` — the integer-division values `D*k/N` are not
strictly increasing, contradicting the claim. -/
theorem downtime_ramp_not_strictly_increasing :
    downtimeRun 1 3 none = [0, 0, 1] ∧
    ¬ List.Chain' (· < ·) (downtimeRun 1 3 none) := by
  refine ⟨by decide, fun h => ?_⟩
  rw [show downtimeRun 1 3 none = [0, 0, 1] from by decide] at h
  simp [List.chain'_cons] at h

/-- C7 (amended): an uncancelled ramp issues exactly `N` calls with values
`⌊D*k/N⌋` for `k = 1..N`; the values are non-decreasing, and strictly
increasing when `N ≤ D`; when cancellation is observed at iteration `c`
the ramp exits after issuing only the first `min c N` calls. -/
theorem downtime_ramp_floor_values (D N c : Nat) :
    downtimeRun D N none = (List.range N).map (fun k => D * (k + 1) / N) ∧
    (downtimeRun D N none).length = N ∧
    downtimeRun D N (some c) =
      (List.range (min c N)).map (fun k => D * (k + 1) / N) ∧
    List.Chain' (· ≤ ·) (downtimeRun D N none) ∧
    List.Chain' (· ≤ ·) (downtimeRun D N (some c)) ∧
    (N ≤ D → List.Chain' (· < ·) (downtimeRun D N none)) ∧
    (N ≤ D → List.Chain' (· < ·) (downtimeRun D N (some c))) := by
  have hnone : downtimeRun D N none =
      (List.range N).map (fun k => D * (k + 1) / N) := by
    unfold downtimeRun
    rw [downtimeLoop_none_eq D N N 0]
    refine List.map_congr_left fun a _ => ?_
    norm_num
  have hsome : downtimeRun D N (some c) =
      (List.range (min c N)).map (fun k => D * (k + 1) / N) := by
    unfold downtimeRun
    rw [downtimeLoop_some_eq D N c N 0]
    rw [Nat.sub_zero]
    refine List.map_congr_left fun a _ => ?_
    norm_num
  refine ⟨hnone, by rw [hnone]; simp, hsome,
    by rw [hnone]; exact rangeMap_chain_le D N N,
    by rw [hsome]; exact rangeMap_chain_le D N (min c N),
    fun hND => ?_, fun hND => ?_⟩
  · rcases Nat.eq_zero_or_pos N with h0 | hN
    · subst h0
      rw [hnone]
      simp
    · rw [hnone]
      exact rangeMap_chain_lt D N N hND hN
  · rcases Nat.eq_zero_or_pos N with h0 | hN
    · subst h0
      rw [hsome]
      simp
    · rw [hsome]
      exact rangeMap_chain_lt D N (min c N) hND hN

/-- C7 check: with `D = 10`, `N = 5` the ramp is strictly increasing, and
a cancellation observed at iteration 2 truncates the ramp. -/
theorem downtime_ramp_floor_values_check :
    List.Chain' (· < ·) (downtimeRun 10 5 none) ∧
    downtimeRun 10 5 (some 2) =
      (List.range (min 2 5)).map (fun k => 10 * (k + 1) / 5) := by
  obtain ⟨h1, h2, h3, h4, h5, h6, h7⟩ := downtime_ramp_floor_values 10 5 2
  exact ⟨h6 (by norm_num), h3⟩

/-- C2 counterexample: two active samples, the first with
`dataRemaining = 0` and the second with `dataRemaining = 50`, drive the
monitor's progress from 100 down to 50 while the migration is neither
stopped nor terminally successful and the status code is still 0 — so the
exposed progress is neither monotone, nor ≤ 99 until terminal success,
nor 100 only at terminal success. -/
theorem monitor_progress_not_monotone :
    (monitorStep cfgNoMax (initMonState 0) sampleZero).progress = 100 ∧
    (monitorStep cfgNoMax (initMonState 0) sampleZero).stopped = false ∧
    (monitorStep cfgNoMax (initMonState 0) sampleZero).aborted = false ∧
    (runMonitor cfgNoMax (initMonState 0) [sampleZero, sampleFifty]).progress
      = 50 ∧
    ¬ ((monitorStep cfgNoMax (initMonState 0) sampleZero).progress ≤
      (runMonitor cfgNoMax (initMonState 0)
        [sampleZero, sampleFifty]).progress) ∧
    initialStatus.code = 0 := by decide

/-- C2 (amended): after every processed sample (job active, no abort) the
exposed progress equals `calculateProgress` of that sample — so it is at
most 99 whenever the sample's `dataRemaining` is nonzero, is 100 whenever
a sample reports `dataRemaining = 0` even before terminal success, and can
decrease when `dataRemaining` grows between samples; `getStat` mirrors the
monitor's field, and terminal success (`_finishSuccessfully`) sets
progress to 100. -/
theorem monitor_progress_tracks_samples :
    (∀ (cfg : MonitorConfig) (st : MonState) (s : JobSample),
      st.stopped = false → (monitorStep cfg st s).stopped = false →
      s.jobType ≠ 0 →
      (monitorStep cfg st s).progress =
        calculateProgress s.dataRemaining s.dataTotal) ∧
    (∀ r t : Int, r ≠ 0 → calculateProgress r t ≤ 99) ∧
    (∀ (st : Status) (p : Int), (getStat st (some p)).progress = p) ∧
    (∀ (env : Env) (mp : List String) (st : Status),
      (finishSuccessfully env mp st).status.progress = 100) := by
  refine ⟨fun cfg st s h1 h2 h3 => ?_, fun r t hr => ?_,
    fun st p => rfl, fun env mp st => ?_⟩
  · unfold monitorStep at h2 ⊢
    simp only [h1, Bool.false_eq_true, if_false] at h2 ⊢
    by_cases hov : 0 < cfg.migrationMaxTime ∧
        cfg.migrationMaxTime < s.now - cfg.startTime
    · simp [hov] at h2
    · simp only [hov, if_false] at h2 ⊢
      cases hlm : st.lowmark
      · simp [progressUpdate, h3]
      · rename_i l
        simp only [hlm] at h2 ⊢
        by_cases himp : s.dataRemaining < l
        · simp [himp, progressUpdate, h3]
        · simp only [himp, if_false] at h2 ⊢
          by_cases hto : cfg.progressTimeout < s.now - st.lastProgressTime
          · simp [hto] at h2
          · simp [hto, progressUpdate, h3]
  · simp only [calculateProgress, if_neg hr]
    generalize (if t ≠ 0 then 100 - 100 * r / t else 0) = q
    by_cases hq : q < 100
    · rw [if_pos hq]
      omega
    · rw [if_neg hq]
  · unfold finishSuccessfully
    cases hm : env.mode
    · simp [hm]
    · simp only [hm]
      split_ifs <;> rfl

/-- C2 check: the processed-sample rule and the 99 bound at concrete
inputs. -/
theorem monitor_progress_tracks_samples_check :
    (monitorStep cfgNoMax (initMonState 0) sampleFifty).progress =
      calculateProgress sampleFifty.dataRemaining sampleFifty.dataTotal ∧
    calculateProgress 50 100 ≤ 99 := by
  obtain ⟨h1, h2, h3, h4⟩ := monitor_progress_tracks_samples
  exact ⟨h1 cfgNoMax (initMonState 0) sampleFifty rfl (by decide) (by decide),
    h2 50 100 (by decide)⟩

/-- C6 counterexample: a monitor whose run loop starts at wall time 100
under a driver-supplied `startTime` of 5 initializes `lastProgressTime`
to 100 (`time.time()` at run start), not to the driver-supplied
`startTime`. -/
theorem monitor_baseline_not_start_time :
    (initMonState 100).lastProgressTime = 100 ∧
    (initMonState 100).lastProgressTime ≠ cfgStall.startTime := by decide

/-- C6 (amended): `lastProgressTime` is initialized to the wall time at
which the monitor's run loop starts (not the driver-supplied `startTime`,
which only feeds the overrun check), and on a processed sample with an
established, unimproved lowmark the monitor aborts exactly when more than
`progressTimeout` seconds have passed since the last lowmark improvement. -/
theorem monitor_stall_abort_baseline :
    (∀ t : Int, (initMonState t).lastProgressTime = t) ∧
    (∀ (cfg : MonitorConfig) (st : MonState) (s : JobSample) (l : Int),
      st.stopped = false → st.aborted = false →
      ¬(0 < cfg.migrationMaxTime ∧
        cfg.migrationMaxTime < s.now - cfg.startTime) →
      st.lowmark = some l → ¬(s.dataRemaining < l) →
      ((monitorStep cfg st s).aborted = true ↔
        cfg.progressTimeout < s.now - st.lastProgressTime)) := by
  refine ⟨fun t => rfl, fun cfg st s l h1 h2 hov hlm himp => ?_⟩
  unfold monitorStep
  simp only [h1, Bool.false_eq_true, if_false, hov, hlm]
  rw [if_neg himp]
  by_cases hto : cfg.progressTimeout < s.now - st.lastProgressTime
  · simp [hto]
  · simp only [hto, if_false, progressUpdate]
    split_ifs <;> simp [h2, hto]

/-- C6 check: the baseline rule and the stall-abort rule at concrete
inputs (timeout 10, no improvement for 200 seconds). -/
theorem monitor_stall_abort_baseline_check :
    (initMonState 7).lastProgressTime = 7 ∧
    ((monitorStep cfgStall stStall sStall).aborted = true ↔
      cfgStall.progressTimeout < sStall.now - stStall.lastProgressTime) := by
  obtain ⟨h1, h2⟩ := monitor_stall_abort_baseline
  exact ⟨h1 7, h2 cfgStall stStall sStall 10 rfl rfl (by decide) rfl (by decide)⟩
